import Mathlib

/-!
tg-bot-demo: registry of known chats, bot command handlers, control API, poll loop

A shallow embedding of `handlers/handlers.go`, `api/handlers.go` and the `runBot`
loop of `main.go`.

Modelling conventions
* `int64` values are `Int`; the only place where the 64-bit range matters is
  `strconv.ParseInt`, which checks it explicitly.  Go `int` counters are `Nat`
  (they count elements of a slice and never overflow).
* Go strings are Lean `String`s.
* `map[int64]bool` is an association list with pairwise distinct keys.  Go leaves
  the iteration order of `range` over a map unspecified; the model iterates in
  storage order, and every statement about "all registry states" quantifies over
  all storage orders.
* The Telegram client `*tgbotapi.BotAPI` is an oracle: its answer to a request is
  an arbitrary function of the requests made so far and of the request itself.
  Every request and its outcome is appended to a log, so that "how many sends, to
  whom, with which text" is a statement about the log.
* `sync.RWMutex` sections are atomic steps; `log.Printf` calls are dropped.
* A message carries its sender (`From`) and chat (`Chat`), as the Telegram
  platform delivers them for user messages.
-/

namespace TgBot

/-! ## Go `map[int64]bool` -/

/-- Go `map[int64]bool`: finitely many entries with pairwise distinct keys. -/
structure GoMap where
  entries : List (Int × Bool)
  nodup : (entries.map Prod.fst).Nodup

/-- Keys of the map in iteration order (`for k := range m`). -/
def GoMap.keys (m : GoMap) : List Int := m.entries.map Prod.fst

/-- The value `make(map[int64]bool)`. -/
def GoMap.make : GoMap := ⟨[], List.nodup_nil⟩

/-- Overwrite the value of every entry whose key is `k`. -/
def overwrite (k : Int) (v : Bool) (es : List (Int × Bool)) : List (Int × Bool) :=
  es.map (fun e => if e.1 = k then (k, v) else e)

/-- The assignment `m[k] = v`: an existing key keeps its slot, a new key gets a new slot. -/
def GoMap.set (m : GoMap) (k : Int) (v : Bool) : GoMap :=
  if h : k ∈ m.entries.map Prod.fst then
    ⟨overwrite k v m.entries, by
      have hk : (overwrite k v m.entries).map Prod.fst = m.entries.map Prod.fst := by
        unfold overwrite
        rw [List.map_map]
        apply List.map_congr_left
        intro e _
        by_cases he : e.1 = k
        · simp [he]
        · simp [he]
      rw [hk]
      exact m.nodup⟩
  else
    ⟨m.entries ++ [(k, v)], by
      rw [List.map_append, List.nodup_append]
      refine ⟨m.nodup, by simp, ?_⟩
      intro a ha hb
      simp only [List.map_cons, List.map_nil, List.mem_singleton] at hb
      exact h (hb ▸ ha)⟩

/-! ## Telegram data (`tgbotapi`) -/

/-- The type `tgbotapi.User`. -/
structure User where
  ID : Int
  FirstName : String
  LastName : String
  UserName : String
  deriving DecidableEq

/-- The type `tgbotapi.Chat`. -/
structure Chat where
  ID : Int
  Type_ : String
  deriving DecidableEq

/-- The type `tgbotapi.Message`.  The last three fields hold what the library methods
`IsCommand()`, `Command()` and `CommandArguments()` return on this message. -/
structure Message where
  MessageID : Int
  From : User
  Chat : Chat
  Text : String
  IsCommand : Bool
  Command : String
  CommandArguments : String
  deriving DecidableEq

/-- The type `tgbotapi.CallbackQuery`; `Message` is the message the pressed button was
attached to (absent for inline messages). -/
structure CallbackQuery where
  ID : String
  From : User
  Message : Option TgBot.Message
  Data : String
  deriving DecidableEq

/-- The type `tgbotapi.Update`: both fields are pointers that may be nil. -/
structure Update where
  Message : Option TgBot.Message
  CallbackQuery : Option TgBot.CallbackQuery
  deriving DecidableEq

/-- Requests the program hands to the Telegram client. -/
inductive Chattable where
  | MessageConfig (ChatID : Int) (Text : String) (ReplyToMessageID : Int)
  | CallbackConfig (CallbackQueryID : String) (Text : String)
  deriving DecidableEq

/-- The constructor `tgbotapi.NewMessage(chatID, text)`: no reply target. -/
def NewMessage (chatID : Int) (text : String) : Chattable :=
  Chattable.MessageConfig chatID text 0

/-- The constructor `tgbotapi.NewCallback(id, text)`. -/
def NewCallback (id : String) (text : String) : Chattable :=
  Chattable.CallbackConfig id text

/-- One request made to the platform with its outcome: `none` is a nil error,
`some e` an error whose `Error()` text is `e`. -/
abbrev Call := Chattable × Option String

/-- The Telegram client: `respond` is the platform (any function of the history and of
the request), `log` the requests made so far, oldest first. -/
structure BotAPI where
  respond : List Call → Chattable → Option String
  log : List Call

/-- The method `bot.Send(c)`: perform the request, return the error. -/
def BotAPI.Send (b : BotAPI) (c : Chattable) : BotAPI × Option String :=
  ({ b with log := b.log ++ [(c, b.respond b.log c)] }, b.respond b.log c)

/-- The method `bot.Request(c)`: same transport as `Send`. -/
def BotAPI.Request (b : BotAPI) (c : Chattable) : BotAPI × Option String :=
  b.Send c

/-! ## Go standard library (`strings`, `strconv`, `fmt`) -/

/-- Split a character list at its first space: the part before and the part after. -/
def cutAtSpace : List Char → Option (List Char × List Char)
  | [] => none
  | c :: cs =>
    if c = ' ' then some ([], cs)
    else match cutAtSpace cs with
      | none => none
      | some (a, b) => some (c :: a, b)

/-- The call `strings.SplitN(s, " ", 2)`: the whole string when it has no space,
otherwise the text before the first space and everything after it. -/
def SplitN (s : String) : List String :=
  match cutAtSpace s.data with
  | none => [s]
  | some (a, b) => [String.mk a, String.mk b]

/-- Value of a decimal digit, `none` for any other character. -/
def digitVal (c : Char) : Option Nat :=
  if 48 ≤ c.toNat ∧ c.toNat ≤ 57 then some (c.toNat - 48) else none

/-- Accumulate decimal digits, failing on the first non-digit. -/
def parseDigits : List Char → Nat → Option Nat
  | [], acc => some acc
  | c :: cs, acc =>
    match digitVal c with
    | none => none
    | some d => parseDigits cs (acc * 10 + d)

/-- The unsigned part of `strconv.ParseInt(s, 10, 64)`: a non-empty run of decimal digits
(no underscores in base 10).  The value is kept exact; the range is checked by `ParseInt`. -/
def ParseUint (cs : List Char) : Option Nat :=
  match cs with
  | [] => none
  | _ => parseDigits cs 0

/-- The call `strconv.ParseInt(s, 10, 64)`: optional sign, decimal digits, and the result
must fit in an `int64`.  `none` stands for a non-nil error (syntax or range). -/
def ParseInt (s : String) : Option Int :=
  match s.data with
  | [] => none
  | c :: cs =>
    let neg := decide (c = '-')
    let body := if c = '+' ∨ c = '-' then cs else c :: cs
    match ParseUint body with
    | none => none
    | some un =>
      if !neg && decide (2 ^ 63 ≤ un) then none
      else if neg && decide (2 ^ 63 < un) then none
      else some (if neg then -(un : Int) else (un : Int))

/-- The verb `%d` of `fmt.Sprintf` on an integer. -/
def FormatInt (n : Int) : String := toString n

/-- String functions of the Go library that the handlers call and whose results are only
copied into reply texts. -/
structure Strings where
  TrimSpace : String → String
  ToLower : String → String

/-! ## `handlers/handlers.go` -/

/-- The type `BotHandlers` (the mutex is implicit: every method below is one atomic step
on the registry). -/
structure BotHandlers where
  bot : BotAPI
  chatIDs : GoMap

/-- The constructor `NewBotHandlers(bot)`. -/
def NewBotHandlers (bot : BotAPI) : BotHandlers :=
  { bot := bot, chatIDs := GoMap.make }

/-- The method `addChatID`: `h.chatIDs[chatID] = true` under the write lock. -/
def addChatID (h : BotHandlers) (chatID : Int) : BotHandlers :=
  { h with chatIDs := h.chatIDs.set chatID true }

/-- The method `sendReply`: a message to the chat of `message`, as a reply to it; a send
error is only logged. -/
def sendReply (h : BotHandlers) (message : Message) (text : String) : BotHandlers :=
  let msg := Chattable.MessageConfig message.Chat.ID text message.MessageID
  { h with bot := (h.bot.Send msg).1 }

/-- The method `handleStartCommand`. -/
def handleStartCommand (h : BotHandlers) (message : Message) : BotHandlers :=
  let welcomeText := "👋 歡迎使用此機器人，" ++ message.From.FirstName ++ "！\n" ++
      "\n" ++
      "我是一個用 Go 語言開發的 Telegram 機器人。\n" ++
      "\n" ++
      "可用指令：\n" ++
      "/start - 顯示歡迎訊息\n" ++
      "/help - 顯示幫助訊息\n" ++
      "/info - 顯示您的資訊\n" ++
      "/echo <文字> - 重複您輸入的文字\n" ++
      "/sendto <聊天ID> <訊息> - 發送訊息到指定聊天\n" ++
      "/broadcast <訊息> - 廣播訊息到所有已知聊天\n" ++
      "\n" ++
      "您也可以直接發送訊息給我，我會回應您！"
  sendReply h message welcomeText

/-- The method `handleHelpCommand`. -/
def handleHelpCommand (h : BotHandlers) (message : Message) : BotHandlers :=
  let helpText := "📚 可用指令說明：\n" ++
      "\n" ++
      "/start - 顯示歡迎訊息\n" ++
      "/help - 顯示此幫助訊息\n" ++
      "/info - 顯示您的用戶資訊\n" ++
      "/echo <文字> - 重複您輸入的文字\n" ++
      "/sendto <聊天ID> <訊息> - 發送訊息到指定聊天\n" ++
      "/broadcast <訊息> - 廣播訊息到所有已知聊天\n" ++
      "\n" ++
      "💡 您也可以直接發送任何文字訊息，我會回應您！"
  sendReply h message helpText

/-- The method `handleInfoCommand`. -/
def handleInfoCommand (h : BotHandlers) (message : Message) : BotHandlers :=
  let user := message.From
  let chat := message.Chat
  let infoText := "ℹ️ 您的資訊：\n" ++
      "\n" ++
      "👤 用戶名稱: " ++ user.FirstName ++ " " ++ user.LastName ++ "\n" ++
      "🆔 用戶 ID: " ++ FormatInt user.ID ++ "\n" ++
      "📝 用戶名: @" ++ user.UserName ++ "\n" ++
      "💬 聊天類型: " ++ chat.Type_ ++ "\n" ++
      "🔢 聊天 ID: " ++ FormatInt chat.ID
  sendReply h message infoText

/-- The method `handleEchoCommand`. -/
def handleEchoCommand (h : BotHandlers) (message : Message) (args : String) : BotHandlers :=
  if args = "" then
    sendReply h message "請在 /echo 後面輸入要重複的文字。\n例如：/echo Hello World"
  else
    let echoText := "🔄 您說：" ++ args
    sendReply h message echoText

/-- The method `handleTextMessage`. -/
def handleTextMessage (lib : Strings) (h : BotHandlers) (message : Message) : BotHandlers :=
  let text := lib.TrimSpace message.Text
  let key := lib.ToLower text
  let reply :=
    if key = "你好" ∨ key = "hello" ∨ key = "hi" then
      "你好 " ++ message.From.FirstName ++ "！很高興見到你 😊"
    else if key = "謝謝" ∨ key = "thank you" ∨ key = "thanks" then
      "不客氣！很高興能幫助您 😊"
    else if key = "再見" ∨ key = "bye" ∨ key = "goodbye" then
      "再見！期待下次見面 👋"
    else
      "你發送了：「" ++ text ++ "」\n\n我是一個簡單的機器人，還在學習中！輸入 /help 查看我能做什麼。"
  sendReply h message reply

/-- The method `handleCallbackQuery`: acknowledge the query; the payload is only logged. -/
def handleCallbackQuery (h : BotHandlers) (callbackQuery : CallbackQuery) : BotHandlers :=
  let callback := NewCallback callbackQuery.ID "已處理！"
  { h with bot := (h.bot.Request callback).1 }

/-- The method `handleSendToCommand`. -/
def handleSendToCommand (h : BotHandlers) (message : Message) (args : String) : BotHandlers :=
  match SplitN args with
  | chatIDStr :: messageText :: _ =>
    match ParseInt chatIDStr with
    | none => sendReply h message "無效的聊天ID格式。聊天ID應該是數字。"
    | some chatID =>
      let msg := NewMessage chatID messageText
      let r := h.bot.Send msg
      let h1 : BotHandlers := { h with bot := r.1 }
      match r.2 with
      | some err => sendReply h1 message ("發送失敗：" ++ err)
      | none => sendReply h1 message ("✅ 訊息已成功發送到聊天 " ++ FormatInt chatID)
  | _ =>
    sendReply h message
      "使用方式：/sendto <聊天ID> <訊息內容>\n例如：/sendto -1001234567890 Hello Group!"

/-- The sending loop of `handleBroadcastCommand`: one `bot.Send` per id, counting
successes and failures. -/
def broadcastSends (args : String) : List Int → BotAPI → Nat → Nat → BotAPI × Nat × Nat
  | [], bot, successCount, failCount => (bot, successCount, failCount)
  | chatID :: rest, bot, successCount, failCount =>
    let r := bot.Send (NewMessage chatID args)
    match r.2 with
    | some _ => broadcastSends args rest r.1 successCount (failCount + 1)
    | none => broadcastSends args rest r.1 (successCount + 1) failCount

/-- The method `handleBroadcastCommand`. -/
def handleBroadcastCommand (h : BotHandlers) (message : Message) (args : String) :
    BotHandlers :=
  if args = "" then
    sendReply h message
      "使用方式：/broadcast <訊息內容>\n例如：/broadcast 重要通知：系統維護中..."
  else
    let chatIDs := h.chatIDs.keys.foldl (fun chatIDs chatID => chatIDs ++ [chatID]) []
    if chatIDs.length = 0 then
      sendReply h message "目前沒有已知的聊天。請先讓機器人加入一些群組或頻道。"
    else
      let r := broadcastSends args chatIDs h.bot 0 0
      let resultText := "📢 廣播完成！\n✅ 成功：" ++ FormatInt r.2.1 ++ " 個聊天\n❌ 失敗：" ++
        FormatInt r.2.2 ++ " 個聊天"
      sendReply { h with bot := r.1 } message resultText

/-- The method `handleCommand`. -/
def handleCommand (h : BotHandlers) (message : Message) : BotHandlers :=
  let command := message.Command
  let args := message.CommandArguments
  if command = "start" then handleStartCommand h message
  else if command = "help" then handleHelpCommand h message
  else if command = "info" then handleInfoCommand h message
  else if command = "echo" then handleEchoCommand h message args
  else if command = "broadcast" then handleBroadcastCommand h message args
  else if command = "sendto" then handleSendToCommand h message args
  else sendReply h message "抱歉，我不認識這個指令。輸入 /help 查看可用指令。"

/-- The method `handleMessage`. -/
def handleMessage (lib : Strings) (h : BotHandlers) (message : Message) : BotHandlers :=
  if message.IsCommand then handleCommand h message
  else handleTextMessage lib h message

/-- The method `HandleUpdate`. -/
def HandleUpdate (lib : Strings) (h : BotHandlers) (update : Update) : BotHandlers :=
  match update.Message with
  | some message => handleMessage lib (addChatID h message.Chat.ID) message
  | none =>
    match update.CallbackQuery with
    | some callbackQuery => handleCallbackQuery h callbackQuery
    | none => h

/-- The method `SendMessageToChat`. -/
def SendMessageToChat (h : BotHandlers) (chatID : Int) (text : String) :
    BotHandlers × Option String :=
  let msg := NewMessage chatID text
  let r := h.bot.Send msg
  ({ h with bot := r.1 }, r.2)

/-- The method `GetKnownChatIDs`: append every key of the map to a fresh slice. -/
def GetKnownChatIDs (h : BotHandlers) : List Int :=
  h.chatIDs.keys.foldl (fun chatIDs chatID => chatIDs ++ [chatID]) []

/-! ## `api/handlers.go` -/

/-- JSON values that occur in the response bodies. -/
inductive JSON where
  | bool (b : Bool)
  | str (s : String)
  | num (n : Int)
  | nums (l : List Int)
  deriving DecidableEq

/-- What `c.JSON(status, obj)` writes: the status code and the fields of the marshalled
object, in the order `encoding/json` emits them. -/
structure HTTPResponse where
  status : Nat
  body : List (String × JSON)
  deriving DecidableEq

/-- The constant `http.StatusOK`. -/
def StatusOK : Nat := 200

/-- The constant `http.StatusBadRequest`. -/
def StatusBadRequest : Nat := 400

/-- The constant `http.StatusInternalServerError`. -/
def StatusInternalServerError : Nat := 500

/-- What `encoding/json` finds in a request body when it decodes into a struct whose
fields are strings: the body is rejected (not JSON, or a field of another type), or it is
an object whose fields of interest are present or not. -/
inductive Body (α : Type) where
  | malformed (err : String)
  | decoded (fields : α)

/-- The string fields a `/api/v1/send` body can carry. -/
structure SendMessageJSON where
  chat_id : Option String
  message : Option String

/-- The string fields a `/api/v1/broadcast` body can carry. -/
structure BroadcastJSON where
  message : Option String

/-- The type `SendMessageRequest`; both fields are tagged `binding:"required"`. -/
structure SendMessageRequest where
  ChatID : String
  Message : String
  deriving DecidableEq

/-- The type `SendMessageResponse`; `ChatID` is tagged `json:"chat_id,omitempty"`. -/
structure SendMessageResponse where
  Success : Bool
  Message : String
  ChatID : Int := 0
  deriving DecidableEq

/-- The type `BroadcastRequest`; the field is tagged `binding:"required"`. -/
structure BroadcastRequest where
  Message : String
  deriving DecidableEq

/-- The type `BroadcastResponse`. -/
structure BroadcastResponse where
  Success : Bool
  Message : String
  SuccessCount : Nat := 0
  FailCount : Nat := 0
  deriving DecidableEq

/-- JSON encoding of a `SendMessageResponse`: `omitempty` drops `chat_id` when it is the
zero value. -/
def SendMessageResponse.marshal (r : SendMessageResponse) : List (String × JSON) :=
  [("success", JSON.bool r.Success), ("message", JSON.str r.Message)] ++
    (if r.ChatID = 0 then [] else [("chat_id", JSON.num r.ChatID)])

/-- JSON encoding of a `BroadcastResponse`: all four fields, always. -/
def BroadcastResponse.marshal (r : BroadcastResponse) : List (String × JSON) :=
  [("success", JSON.bool r.Success), ("message", JSON.str r.Message),
   ("success_count", JSON.num r.SuccessCount), ("fail_count", JSON.num r.FailCount)]

/-- Error text of the validator for a `required` field left at its zero value. -/
def requiredError (typeName field : String) : String :=
  "Key: \x27" ++ typeName ++ "." ++ field ++ "\x27 Error:Field validation for \x27" ++
    field ++ "\x27 failed on the \x27required\x27 tag"

/-- The call `c.ShouldBindJSON(&req)` for a `SendMessageRequest`: decode (an absent field
keeps the zero value `""`), then check the `required` tags, which reject the zero value. -/
def ShouldBindJSONSend (body : Body SendMessageJSON) : Except String SendMessageRequest :=
  match body with
  | Body.malformed err => Except.error err
  | Body.decoded fields =>
    let req : SendMessageRequest :=
      { ChatID := fields.chat_id.getD "", Message := fields.message.getD "" }
    let errs :=
      (if req.ChatID = "" then [requiredError "SendMessageRequest" "ChatID"] else []) ++
      (if req.Message = "" then [requiredError "SendMessageRequest" "Message"] else [])
    match errs with
    | [] => Except.ok req
    | _ => Except.error ("\n".intercalate errs)

/-- The call `c.ShouldBindJSON(&req)` for a `BroadcastRequest`. -/
def ShouldBindJSONBroadcast (body : Body BroadcastJSON) : Except String BroadcastRequest :=
  match body with
  | Body.malformed err => Except.error err
  | Body.decoded fields =>
    let req : BroadcastRequest := { Message := fields.message.getD "" }
    if req.Message = "" then Except.error (requiredError "BroadcastRequest" "Message")
    else Except.ok req

/-- The type `APIHandlers`: a reference to the shared `BotHandlers`. -/
structure APIHandlers where
  botHandlers : BotHandlers

/-- The constructor `NewAPIHandlers`. -/
def NewAPIHandlers (botHandlers : BotHandlers) : APIHandlers :=
  { botHandlers := botHandlers }

/-- The handler `SendMessage` of `POST /api/v1/send`. -/
def APIHandlers.SendMessage (a : APIHandlers) (body : Body SendMessageJSON) :
    APIHandlers × HTTPResponse :=
  match ShouldBindJSONSend body with
  | Except.error err =>
    (a, ⟨StatusBadRequest,
      SendMessageResponse.marshal { Success := false, Message := "請求格式錯誤：" ++ err }⟩)
  | Except.ok req =>
    match ParseInt req.ChatID with
    | none =>
      (a, ⟨StatusBadRequest,
        SendMessageResponse.marshal
          { Success := false, Message := "無效的聊天ID格式，請使用數字格式" }⟩)
    | some chatID =>
      let r := SendMessageToChat a.botHandlers chatID req.Message
      match r.2 with
      | some err =>
        ({ botHandlers := r.1 }, ⟨StatusInternalServerError,
          SendMessageResponse.marshal { Success := false, Message := "發送訊息失敗：" ++ err }⟩)
      | none =>
        ({ botHandlers := r.1 }, ⟨StatusOK,
          SendMessageResponse.marshal
            { Success := true, Message := "訊息發送成功", ChatID := chatID }⟩)

/-- The sending loop of the handler `Broadcast`: one `SendMessageToChat` per id, counting
successes and failures. -/
def apiBroadcastSends (message : String) :
    List Int → BotHandlers → Nat → Nat → BotHandlers × Nat × Nat
  | [], h, successCount, failCount => (h, successCount, failCount)
  | chatID :: rest, h, successCount, failCount =>
    let r := SendMessageToChat h chatID message
    match r.2 with
    | some _ => apiBroadcastSends message rest r.1 successCount (failCount + 1)
    | none => apiBroadcastSends message rest r.1 (successCount + 1) failCount

/-- The handler `Broadcast` of `POST /api/v1/broadcast`. -/
def APIHandlers.Broadcast (a : APIHandlers) (body : Body BroadcastJSON) :
    APIHandlers × HTTPResponse :=
  match ShouldBindJSONBroadcast body with
  | Except.error err =>
    (a, ⟨StatusBadRequest,
      BroadcastResponse.marshal { Success := false, Message := "請求格式錯誤：" ++ err }⟩)
  | Except.ok req =>
    let chatIDs := GetKnownChatIDs a.botHandlers
    if chatIDs.length = 0 then
      (a, ⟨StatusBadRequest,
        BroadcastResponse.marshal
          { Success := false,
            Message := "目前沒有已知的聊天。請先讓機器人加入一些群組或與用戶互動。" }⟩)
    else
      let r := apiBroadcastSends req.Message chatIDs a.botHandlers 0 0
      ({ botHandlers := r.1 }, ⟨StatusOK,
        BroadcastResponse.marshal
          { Success := true, Message := "廣播完成",
            SuccessCount := r.2.1, FailCount := r.2.2 }⟩)

/-- The handler `GetChats` of `GET /api/v1/chats` (a `gin.H` map is marshalled with its
keys sorted). -/
def APIHandlers.GetChats (a : APIHandlers) : APIHandlers × HTTPResponse :=
  let chatIDs := GetKnownChatIDs a.botHandlers
  (a, ⟨StatusOK,
    [("chat_ids", JSON.nums chatIDs), ("count", JSON.num chatIDs.length),
     ("message", JSON.str "取得聊天列表成功"), ("success", JSON.bool true)]⟩)

/-- The handler `Health` of `GET /health`. -/
def APIHandlers.Health (a : APIHandlers) : APIHandlers × HTTPResponse :=
  (a, ⟨StatusOK,
    [("message", JSON.str "Telegram Bot API 運行正常"), ("status", JSON.str "ok")]⟩)

/-! ## `main.go`: the poll loop `runBot` -/

/-- States of the poll loop: inside the `for` loop, or past the cancellation branch. -/
inductive LoopState where
  | Running
  | ShuttingDown
  deriving DecidableEq

/-- The case of the `select` statement that fires in one iteration. -/
inductive Selected where
  | ctxDone
  | update (u : Update)
  deriving DecidableEq

/-- The poll loop with what it has done so far: the shared handlers, the updates handed
to `go botHandlers.HandleUpdate`, and the calls of `bot.StopReceivingUpdates()`. -/
structure BotLoop where
  state : LoopState
  botHandlers : BotHandlers
  dispatched : List Update
  stopCalls : Nat

/-- The function `runBot` at loop entry. -/
def runBotStart (botHandlers : BotHandlers) : BotLoop :=
  { state := LoopState.Running, botHandlers := botHandlers, dispatched := [], stopCalls := 0 }

/-- One iteration of the `for`/`select` of `runBot`.  The goroutine started for an update
is run at the point where it is started (the loop never reads what it writes).  After the
`return` of the cancellation branch there is no further iteration. -/
def runBotStep (lib : Strings) (s : BotLoop) (e : Selected) : BotLoop :=
  match s.state with
  | LoopState.ShuttingDown => s
  | LoopState.Running =>
    match e with
    | Selected.ctxDone =>
      { s with state := LoopState.ShuttingDown, stopCalls := s.stopCalls + 1 }
    | Selected.update u =>
      { s with botHandlers := HandleUpdate lib s.botHandlers u,
               dispatched := s.dispatched ++ [u] }

/-- The function `runBot` along a sequence of `select` outcomes. -/
def runBot (lib : Strings) (botHandlers : BotHandlers) (events : List Selected) : BotLoop :=
  events.foldl (runBotStep lib) (runBotStart botHandlers)

/-! ## Operations of the program and concrete inputs for the examples -/

/-- Concrete platform used in the examples: every request succeeds. -/
def okBot : BotAPI := ⟨fun _ _ => none, []⟩

/-- The operations that run on the shared `BotHandlers`: recording an id, `HandleUpdate`
on an update, the `/sendto` and `/broadcast` command handlers, and the four API handlers. -/
inductive Op where
  | record (chatID : Int)
  | update (u : Update)
  | sendto (message : Message) (args : String)
  | broadcast (message : Message) (args : String)
  | apiSend (body : Body SendMessageJSON)
  | apiBroadcast (body : Body BroadcastJSON)
  | apiChats
  | apiHealth

/-- Run one operation on the shared `BotHandlers`. -/
def Op.run (lib : Strings) (h : BotHandlers) : Op → BotHandlers
  | Op.record chatID => TgBot.addChatID h chatID
  | Op.update u => TgBot.HandleUpdate lib h u
  | Op.sendto message args => TgBot.handleSendToCommand h message args
  | Op.broadcast message args => TgBot.handleBroadcastCommand h message args
  | Op.apiSend body => ((NewAPIHandlers h).SendMessage body).1.botHandlers
  | Op.apiBroadcast body => ((NewAPIHandlers h).Broadcast body).1.botHandlers
  | Op.apiChats => (NewAPIHandlers h).GetChats.1.botHandlers
  | Op.apiHealth => (NewAPIHandlers h).Health.1.botHandlers

/-- Library functions used in the examples: both leave the text as it is. -/
def idStrings : Strings := ⟨fun s => s, fun s => s⟩

/-- A sender for the examples. -/
def alice : User := ⟨5, "Alice", "A", "alice"⟩

/-- A message for the examples, in chat 7 with message id 10. -/
def msgIn7 (text : String) (isCommand : Bool) (command args : String) : Message :=
  ⟨10, alice, ⟨7, "private"⟩, text, isCommand, command, args⟩

/-- A callback query for the examples: a button pressed under a message of chat 42. -/
def callbackIn42 : CallbackQuery :=
  ⟨"cb1", alice, some ⟨3, alice, ⟨42, "group"⟩, "menu", false, "", ""⟩, "data"⟩

/-- The usage hint of `/echo`. -/
def echoUsage : String := "請在 /echo 後面輸入要重複的文字。\n例如：/echo Hello World"

/-- Bodies of `POST /api/v1/send` that are not a valid request: the body is not decodable,
`chat_id` is missing, empty or not a base-10 64-bit integer, or `message` is missing or
empty. -/
def InvalidSendBody : Body SendMessageJSON → Prop
  | Body.malformed _ => True
  | Body.decoded fields =>
    fields.chat_id = none ∨ fields.chat_id = some "" ∨
    fields.message = none ∨ fields.message = some "" ∨
    fields.chat_id.bind ParseInt = none

/-- Platform for the examples: a message to chat 2 fails, every other request succeeds. -/
def failsFor2 : BotAPI :=
  ⟨fun _ c => match c with
    | Chattable.MessageConfig 2 _ _ => some "Bad Request: chat not found"
    | _ => none, []⟩

/-- Platform for the examples: every request fails. -/
def downBot : BotAPI := ⟨fun _ _ => some "connection refused", []⟩

/-- The usage hint of `/broadcast`. -/
def broadcastUsage : String :=
  "使用方式：/broadcast <訊息內容>\n例如：/broadcast 重要通知：系統維護中..."

/-- The summary text of `/broadcast` for given success and failure counts. -/
def broadcastSummary (successCount failCount : Nat) : String :=
  "📢 廣播完成！\n✅ 成功：" ++ FormatInt successCount ++ " 個聊天\n❌ 失敗：" ++
    FormatInt failCount ++ " 個聊天"

/-- The usage hint of `/sendto`. -/
def sendtoUsage : String :=
  "使用方式：/sendto <聊天ID> <訊息內容>\n例如：/sendto -1001234567890 Hello Group!"

/-- The hint of `/sendto` for an id that is not a number. -/
def sendtoInvalidID : String := "無效的聊天ID格式。聊天ID應該是數字。"

/-- The updates of a sequence of `select` outcomes that come before its first
cancellation. -/
def updatesBeforeCancel : List Selected → List Update
  | [] => []
  | Selected.ctxDone :: _ => []
  | Selected.update u :: rest => u :: updatesBeforeCancel rest

/-! # Theorems -/
/-! ## Registry lemmas -/

theorem foldl_append_singleton (l acc : List Int) :
    l.foldl (fun chatIDs chatID => chatIDs ++ [chatID]) acc = acc ++ l := by
  induction l generalizing acc with
  | nil => simp
  | cons a l ih => simp [List.foldl_cons, ih]

theorem GetKnownChatIDs_eq_keys (h : BotHandlers) : GetKnownChatIDs h = h.chatIDs.keys := by
  simp [GetKnownChatIDs, foldl_append_singleton]

theorem overwrite_keys (k : Int) (v : Bool) (es : List (Int × Bool)) :
    (overwrite k v es).map Prod.fst = es.map Prod.fst := by
  unfold overwrite
  rw [List.map_map]
  apply List.map_congr_left
  intro e _
  by_cases he : e.1 = k
  · simp [he]
  · simp [he]

theorem GoMap.keys_set (m : GoMap) (k : Int) (v : Bool) :
    (m.set k v).keys = if k ∈ m.keys then m.keys else m.keys ++ [k] := by
  unfold GoMap.set GoMap.keys
  by_cases h : k ∈ m.entries.map Prod.fst
  · simp only [h, dite_true, if_true]
    exact overwrite_keys k v m.entries
  · simp only [h, dite_false, if_false]
    simp

theorem GoMap.mem_keys_set (m : GoMap) (k : Int) (v : Bool) (x : Int) :
    x ∈ (m.set k v).keys ↔ x = k ∨ x ∈ m.keys := by
  rw [GoMap.keys_set]
  by_cases h : k ∈ m.keys
  · simp only [h, if_true]
    constructor
    · intro hx; exact Or.inr hx
    · rintro (rfl | hx)
      · exact h
      · exact hx
  · simp only [h, if_false, List.mem_append, List.mem_singleton]
    tauto

theorem GoMap.keys_nodup (m : GoMap) : m.keys.Nodup := m.nodup

theorem GetKnownChatIDs_nodup (h : BotHandlers) : (GetKnownChatIDs h).Nodup := by
  rw [GetKnownChatIDs_eq_keys]; exact h.chatIDs.keys_nodup

theorem mem_GetKnownChatIDs_addChatID (h : BotHandlers) (k x : Int) :
    x ∈ GetKnownChatIDs (addChatID h k) ↔ x = k ∨ x ∈ GetKnownChatIDs h := by
  rw [GetKnownChatIDs_eq_keys, GetKnownChatIDs_eq_keys]
  exact GoMap.mem_keys_set h.chatIDs k true x

theorem mem_GetKnownChatIDs_foldl (ids : List Int) (h : BotHandlers) (x : Int) :
    x ∈ GetKnownChatIDs (ids.foldl addChatID h) ↔ x ∈ GetKnownChatIDs h ∨ x ∈ ids := by
  induction ids generalizing h with
  | nil => simp
  | cons a ids ih =>
    rw [List.foldl_cons, ih, mem_GetKnownChatIDs_addChatID, List.mem_cons]
    tauto

theorem GetKnownChatIDs_new (bot : BotAPI) : GetKnownChatIDs (NewBotHandlers bot) = [] := rfl

theorem addChatID_of_mem (h : BotHandlers) (k : Int) (hk : k ∈ GetKnownChatIDs h) :
    GetKnownChatIDs (addChatID h k) = GetKnownChatIDs h := by
  rw [GetKnownChatIDs_eq_keys] at hk
  rw [GetKnownChatIDs_eq_keys, GetKnownChatIDs_eq_keys]
  show (h.chatIDs.set k true).keys = h.chatIDs.keys
  rw [GoMap.keys_set, if_pos hk]

/-! ## C1 -/

/-- C1. Starting from the empty registry of `NewBotHandlers`, after recording any list
`ids` through `addChatID` the snapshot of `GetKnownChatIDs` holds every recorded id exactly
once and no other id; recording an id a second time leaves the snapshot as it is; and
recording a permutation of `ids` gives a snapshot with the same ids (a permutation of the
first one). -/
theorem registry_snapshot_is_set_of_recorded (bot : BotAPI) (ids : List Int) :
    (∀ x : Int, (GetKnownChatIDs (ids.foldl addChatID (NewBotHandlers bot))).count x =
        if x ∈ ids then 1 else 0) ∧
    (∀ x : Int, GetKnownChatIDs (addChatID (addChatID (ids.foldl addChatID (NewBotHandlers bot)) x) x) =
        GetKnownChatIDs (addChatID (ids.foldl addChatID (NewBotHandlers bot)) x)) ∧
    (∀ ids2 : List Int, ids2.Perm ids →
        (GetKnownChatIDs (ids2.foldl addChatID (NewBotHandlers bot))).Perm
          (GetKnownChatIDs (ids.foldl addChatID (NewBotHandlers bot))) ∧
        ∀ x : Int, x ∈ GetKnownChatIDs (ids2.foldl addChatID (NewBotHandlers bot)) ↔
          x ∈ GetKnownChatIDs (ids.foldl addChatID (NewBotHandlers bot))) := by
  have hcount : ∀ l : List Int, ∀ x : Int,
      (GetKnownChatIDs (l.foldl addChatID (NewBotHandlers bot))).count x =
        if x ∈ l then 1 else 0 := by
    intro l x
    have hm := mem_GetKnownChatIDs_foldl l (NewBotHandlers bot) x
    rw [GetKnownChatIDs_new] at hm
    simp only [List.not_mem_nil, false_or] at hm
    by_cases hx : x ∈ l
    · rw [if_pos hx]
      exact List.count_eq_one_of_mem (GetKnownChatIDs_nodup _) (hm.mpr hx)
    · rw [if_neg hx]
      exact List.count_eq_zero_of_not_mem (fun hc => hx (hm.mp hc))
  refine ⟨hcount ids, ?_, ?_⟩
  · intro x
    apply addChatID_of_mem
    rw [mem_GetKnownChatIDs_addChatID]
    exact Or.inl rfl
  · intro ids2 hp
    have hperm : (GetKnownChatIDs (ids2.foldl addChatID (NewBotHandlers bot))).Perm
        (GetKnownChatIDs (ids.foldl addChatID (NewBotHandlers bot))) := by
      rw [List.perm_iff_count]
      intro x
      rw [hcount ids2 x, hcount ids x]
      simp only [hp.mem_iff]
    exact ⟨hperm, fun x => hperm.mem_iff⟩

/-- C1 at the calls `3, 1, 3, 2, 1`: the snapshot is `3, 1, 2`, and the reversed call
sequence gives a permutation of it. -/
theorem registry_snapshot_is_set_of_recorded_witness :
    GetKnownChatIDs ([3, 1, 3, 2, 1].foldl addChatID (NewBotHandlers okBot)) = [3, 1, 2] ∧
    (GetKnownChatIDs ([1, 2, 3, 1, 3].foldl addChatID (NewBotHandlers okBot))).Perm
      (GetKnownChatIDs ([3, 1, 3, 2, 1].foldl addChatID (NewBotHandlers okBot))) :=
  ⟨by decide,
   ((registry_snapshot_is_set_of_recorded okBot [3, 1, 3, 2, 1]).2.2 [1, 2, 3, 1, 3]
      (by decide)).1⟩


/-! ## The handlers leave the registry alone -/

theorem sendReply_chatIDs (h : BotHandlers) (m : Message) (t : String) :
    (sendReply h m t).chatIDs = h.chatIDs := rfl

theorem handleEchoCommand_chatIDs (h : BotHandlers) (m : Message) (args : String) :
    (handleEchoCommand h m args).chatIDs = h.chatIDs := by
  unfold handleEchoCommand
  split <;> rfl

theorem handleSendToCommand_chatIDs (h : BotHandlers) (m : Message) (args : String) :
    (handleSendToCommand h m args).chatIDs = h.chatIDs := by
  unfold handleSendToCommand
  split
  · split
    · rfl
    · dsimp only
      split <;> rfl
  · rfl

theorem handleBroadcastCommand_chatIDs (h : BotHandlers) (m : Message) (args : String) :
    (handleBroadcastCommand h m args).chatIDs = h.chatIDs := by
  unfold handleBroadcastCommand
  split
  · rfl
  · dsimp only
    split <;> rfl

theorem handleCommand_chatIDs (h : BotHandlers) (m : Message) :
    (handleCommand h m).chatIDs = h.chatIDs := by
  unfold handleCommand
  dsimp only
  split
  · rfl
  split
  · rfl
  split
  · rfl
  split
  · exact handleEchoCommand_chatIDs h m _
  split
  · exact handleBroadcastCommand_chatIDs h m _
  split
  · exact handleSendToCommand_chatIDs h m _
  · rfl

theorem handleMessage_chatIDs (lib : Strings) (h : BotHandlers) (m : Message) :
    (handleMessage lib h m).chatIDs = h.chatIDs := by
  unfold handleMessage
  split
  · exact handleCommand_chatIDs h m
  · rfl

theorem HandleUpdate_chatIDs (lib : Strings) (h : BotHandlers) (u : Update) :
    (HandleUpdate lib h u).chatIDs =
      match u.Message with
      | some m => (addChatID h m.Chat.ID).chatIDs
      | none => h.chatIDs := by
  unfold HandleUpdate
  cases hm : u.Message with
  | some m => exact handleMessage_chatIDs lib _ m
  | none =>
    cases hc : u.CallbackQuery with
    | some cq => rfl
    | none => rfl

theorem apiBroadcastSends_chatIDs (msg : String) (ids : List Int) (h : BotHandlers)
    (s f : Nat) : (apiBroadcastSends msg ids h s f).1.chatIDs = h.chatIDs := by
  induction ids generalizing h s f with
  | nil => rfl
  | cons a ids ih =>
    unfold apiBroadcastSends
    dsimp only
    split
    · rw [ih]; rfl
    · rw [ih]; rfl

theorem SendMessage_chatIDs (a : APIHandlers) (body : Body SendMessageJSON) :
    (a.SendMessage body).1.botHandlers.chatIDs = a.botHandlers.chatIDs := by
  unfold APIHandlers.SendMessage
  split
  · rfl
  · split
    · rfl
    · dsimp only
      split <;> rfl

theorem Broadcast_chatIDs (a : APIHandlers) (body : Body BroadcastJSON) :
    (a.Broadcast body).1.botHandlers.chatIDs = a.botHandlers.chatIDs := by
  unfold APIHandlers.Broadcast
  split
  · rfl
  · dsimp only
    split
    · rfl
    · exact apiBroadcastSends_chatIDs _ _ _ _ _

theorem GetKnownChatIDs_congr (h1 h2 : BotHandlers) (e : h1.chatIDs = h2.chatIDs) :
    GetKnownChatIDs h1 = GetKnownChatIDs h2 := by
  unfold GetKnownChatIDs; rw [e]

theorem run_mono (lib : Strings) (h : BotHandlers) (op : Op) (x : Int)
    (hx : x ∈ GetKnownChatIDs h) : x ∈ GetKnownChatIDs (op.run lib h) := by
  cases op with
  | record k => exact (mem_GetKnownChatIDs_addChatID h k x).mpr (Or.inr hx)
  | update u =>
    show x ∈ GetKnownChatIDs (HandleUpdate lib h u)
    cases hm : u.Message with
    | some m =>
      have e := HandleUpdate_chatIDs lib h u
      rw [hm] at e
      rw [GetKnownChatIDs_congr _ _ e]
      exact (mem_GetKnownChatIDs_addChatID h m.Chat.ID x).mpr (Or.inr hx)
    | none =>
      have e := HandleUpdate_chatIDs lib h u
      rw [hm] at e
      rw [GetKnownChatIDs_congr _ _ e]
      exact hx
  | sendto m args =>
    show x ∈ GetKnownChatIDs (handleSendToCommand h m args)
    rw [GetKnownChatIDs_congr _ _ (handleSendToCommand_chatIDs h m args)]; exact hx
  | broadcast m args =>
    show x ∈ GetKnownChatIDs (handleBroadcastCommand h m args)
    rw [GetKnownChatIDs_congr _ _ (handleBroadcastCommand_chatIDs h m args)]; exact hx
  | apiSend body =>
    show x ∈ GetKnownChatIDs ((NewAPIHandlers h).SendMessage body).1.botHandlers
    rw [GetKnownChatIDs_congr _ _ (SendMessage_chatIDs _ body)]; exact hx
  | apiBroadcast body =>
    show x ∈ GetKnownChatIDs ((NewAPIHandlers h).Broadcast body).1.botHandlers
    rw [GetKnownChatIDs_congr _ _ (Broadcast_chatIDs _ body)]; exact hx
  | apiChats => exact hx
  | apiHealth => exact hx

theorem runs_mono (lib : Strings) (ops : List Op) (h : BotHandlers) (x : Int)
    (hx : x ∈ GetKnownChatIDs h) : x ∈ GetKnownChatIDs (ops.foldl (Op.run lib) h) := by
  induction ops generalizing h with
  | nil => exact hx
  | cons op ops ih => exact ih _ (run_mono lib h op x hx)

/-! ## C2 -/

/-- C2. Registry membership only grows: an id that is in the `GetKnownChatIDs` snapshot of
a registry state is still in the snapshot after any one operation (`addChatID`,
`HandleUpdate` on any update, the `/sendto` and `/broadcast` handlers, the API handlers
`SendMessage`, `Broadcast`, `GetChats`, `Health`) and after any finite sequence of them; and
once `addChatID h x` has returned, `x` is in the snapshot after any further operations. -/
theorem registry_membership_only_grows (lib : Strings) (h : BotHandlers) (x : Int) :
    (x ∈ GetKnownChatIDs h → ∀ op : Op, x ∈ GetKnownChatIDs (op.run lib h)) ∧
    (x ∈ GetKnownChatIDs h → ∀ ops : List Op, x ∈ GetKnownChatIDs (ops.foldl (Op.run lib) h)) ∧
    (∀ ops : List Op, x ∈ GetKnownChatIDs (ops.foldl (Op.run lib) (addChatID h x))) :=
  ⟨fun hx op => run_mono lib h op x hx,
   fun hx ops => runs_mono lib ops h x hx,
   fun ops => runs_mono lib ops _ x ((mem_GetKnownChatIDs_addChatID h x x).mpr (Or.inl rfl))⟩

/-- C2 at a registry holding `1` and `2`: after a callback update, a `/broadcast` command
and an API broadcast, `1` is still known. -/
theorem registry_membership_only_grows_witness :
    (1 : Int) ∈ GetKnownChatIDs ([1, 2].foldl addChatID (NewBotHandlers okBot)) ∧
    (1 : Int) ∈ GetKnownChatIDs
      ([Op.update ⟨none, some ⟨"q", alice, none, "d"⟩⟩,
        Op.broadcast (msgIn7 "/broadcast x" true "broadcast" "x") "x",
        Op.apiBroadcast (Body.decoded ⟨some "x"⟩)].foldl (Op.run idStrings)
          ([1, 2].foldl addChatID (NewBotHandlers okBot))) :=
  ⟨by decide,
   (registry_membership_only_grows idStrings ([1, 2].foldl addChatID (NewBotHandlers okBot))
      1).2.1 (by decide) _⟩

/-! ## C3 -/

/-- C3, as stated, fails: `HandleUpdate` on a callback query that comes from chat 42 only
acknowledges the query; chat 42 is not in the registry afterwards. -/
theorem callback_query_source_not_recorded :
    (42 : Int) ∉ GetKnownChatIDs
        (HandleUpdate idStrings (NewBotHandlers okBot) ⟨none, some callbackIn42⟩) ∧
    GetKnownChatIDs
        (HandleUpdate idStrings (NewBotHandlers okBot) ⟨none, some callbackIn42⟩) = [] ∧
    (HandleUpdate idStrings (NewBotHandlers okBot) ⟨none, some callbackIn42⟩).bot.log =
      [(NewCallback "cb1" "已處理！", none)] := by
  decide

/-- C3, amended. For every update that carries a message (plain text or command),
`HandleUpdate` records the chat id of the message before it does anything else (the
message handler runs on the registry that already holds the id) and the id is in the
registry afterwards; for an update without a message (a callback query, or neither) the
registry snapshot is unchanged. -/
theorem message_source_recorded_first (lib : Strings) (h : BotHandlers) (u : Update) :
    (∀ m : Message, u.Message = some m →
        HandleUpdate lib h u = handleMessage lib (addChatID h m.Chat.ID) m ∧
        m.Chat.ID ∈ GetKnownChatIDs (addChatID h m.Chat.ID) ∧
        m.Chat.ID ∈ GetKnownChatIDs (HandleUpdate lib h u)) ∧
    (u.Message = none → GetKnownChatIDs (HandleUpdate lib h u) = GetKnownChatIDs h) := by
  constructor
  · intro m hm
    have e := HandleUpdate_chatIDs lib h u
    rw [hm] at e
    have hin : m.Chat.ID ∈ GetKnownChatIDs (addChatID h m.Chat.ID) :=
      (mem_GetKnownChatIDs_addChatID h m.Chat.ID m.Chat.ID).mpr (Or.inl rfl)
    refine ⟨?_, hin, ?_⟩
    · unfold HandleUpdate
      rw [hm]
    · rw [GetKnownChatIDs_congr _ _ e]
      exact hin
  · intro hm
    have e := HandleUpdate_chatIDs lib h u
    rw [hm] at e
    exact GetKnownChatIDs_congr _ _ e

/-- C3 amended, at a plain text message from chat 7 on the empty registry. -/
theorem message_source_recorded_first_witness :
    (7 : Int) ∈ GetKnownChatIDs (HandleUpdate idStrings (NewBotHandlers okBot)
      ⟨some (msgIn7 "hello" false "" ""), none⟩) :=
  ((message_source_recorded_first idStrings (NewBotHandlers okBot)
      ⟨some (msgIn7 "hello" false "" ""), none⟩).1 (msgIn7 "hello" false "" "") rfl).2.2

/-! ## C9 -/

theorem sendReply_log (h : BotHandlers) (m : Message) (t : String) :
    (sendReply h m t).bot.log =
      h.bot.log ++ [(Chattable.MessageConfig m.Chat.ID t m.MessageID,
        h.bot.respond h.bot.log (Chattable.MessageConfig m.Chat.ID t m.MessageID))] := rfl

theorem sendReply_respond (h : BotHandlers) (m : Message) (t : String) :
    (sendReply h m t).bot.respond = h.bot.respond := rfl

/-- C9. The echo command makes exactly one request to the platform: a message to the chat
of the originating message, marked as a reply to that message.  Its text is the usage hint
when the argument string is empty, and otherwise the marker followed by the argument
string, so the argument string occurs in it verbatim as a contiguous substring. -/
theorem echo_single_threaded_reply (h : BotHandlers) (message : Message) (args : String) :
    ∃ (text : String) (outcome : Option String),
      (handleEchoCommand h message args).bot.log =
        h.bot.log ++ [(Chattable.MessageConfig message.Chat.ID text message.MessageID, outcome)] ∧
      (args = "" → text = echoUsage) ∧
      (args ≠ "" → text = "🔄 您說：" ++ args ∧ args.data <:+: text.data) := by
  by_cases ha : args = ""
  · refine ⟨echoUsage,
      h.bot.respond h.bot.log (Chattable.MessageConfig message.Chat.ID echoUsage message.MessageID),
      ?_, fun _ => rfl, fun hne => absurd ha hne⟩
    unfold handleEchoCommand
    rw [if_pos ha]
    rfl
  · refine ⟨"🔄 您說：" ++ args,
      h.bot.respond h.bot.log
        (Chattable.MessageConfig message.Chat.ID ("🔄 您說：" ++ args) message.MessageID),
      ?_, fun he => absurd he ha, fun _ => ⟨rfl, ?_⟩⟩
    · unfold handleEchoCommand
      rw [if_neg ha]
      rfl
    · rw [String.data_append]
      exact (List.suffix_append _ _).isInfix

/-- C9 at `/echo Hello` sent as message 10 of chat 7. -/
theorem echo_single_threaded_reply_witness :
    (handleEchoCommand (NewBotHandlers okBot) (msgIn7 "/echo Hello" true "echo" "Hello")
        "Hello").bot.log = [(Chattable.MessageConfig 7 "🔄 您說：Hello" 10, none)] ∧
    (handleEchoCommand (NewBotHandlers okBot) (msgIn7 "/echo" true "echo" "")
        "").bot.log = [(Chattable.MessageConfig 7 echoUsage 10, none)] ∧
    ∃ (text : String) (outcome : Option String),
      (handleEchoCommand (NewBotHandlers okBot) (msgIn7 "/echo Hello" true "echo" "Hello")
        "Hello").bot.log =
        (NewBotHandlers okBot).bot.log ++ [(Chattable.MessageConfig 7 text 10, outcome)] ∧
      ("Hello" = "" → text = echoUsage) ∧
      ("Hello" ≠ "" → text = "🔄 您說：" ++ "Hello" ∧ "Hello".data <:+: text.data) :=
  ⟨by decide, by decide,
   echo_single_threaded_reply (NewBotHandlers okBot)
     (msgIn7 "/echo Hello" true "echo" "Hello") "Hello"⟩

/-! ## `ParseInt` stays in the `int64` range -/

theorem ParseInt_int64 (s : String) (n : Int) (hp : ParseInt s = some n) :
    -(2 : Int) ^ 63 ≤ n ∧ n < (2 : Int) ^ 63 := by
  unfold ParseInt at hp
  cases hd : s.data with
  | nil => rw [hd] at hp; cases hp
  | cons c cs =>
    rw [hd] at hp
    dsimp only at hp
    cases hu : ParseUint (if c = '+' ∨ c = '-' then cs else c :: cs) with
    | none => rw [hu] at hp; cases hp
    | some un =>
      rw [hu] at hp
      dsimp only at hp
      by_cases hneg : c = '-'
      · simp [hneg] at hp
        obtain ⟨hle, rfl⟩ := hp
        norm_num
        constructor <;> omega
      · simp [hneg] at hp
        obtain ⟨hle, rfl⟩ := hp
        norm_num
        constructor <;> omega

/-! ## C4 and C5: the API handler `SendMessage` -/

theorem ParseInt_empty : ParseInt "" = none := rfl

theorem ShouldBindJSONSend_ok (c m : String) (hc : c ≠ "") (hm : m ≠ "") :
    ShouldBindJSONSend (Body.decoded ⟨some c, some m⟩) = Except.ok ⟨c, m⟩ := by
  simp [ShouldBindJSONSend, hc, hm]

theorem ShouldBindJSONSend_error (fields : SendMessageJSON)
    (hz : fields.chat_id.getD "" = "" ∨ fields.message.getD "" = "") :
    ∃ e, ShouldBindJSONSend (Body.decoded fields) = Except.error e := by
  unfold ShouldBindJSONSend
  dsimp only
  by_cases hc : fields.chat_id.getD "" = ""
  · by_cases hm : fields.message.getD "" = ""
    · simp [hc, hm]
    · simp [hc, hm]
  · have hm : fields.message.getD "" = "" := hz.resolve_left hc
    simp [hc, hm]

theorem SendMessage_of_bind_error (a : APIHandlers) (body : Body SendMessageJSON) (e : String)
    (hb : ShouldBindJSONSend body = Except.error e) :
    a.SendMessage body = (a, ⟨StatusBadRequest,
      [("success", JSON.bool false), ("message", JSON.str ("請求格式錯誤：" ++ e))]⟩) := by
  unfold APIHandlers.SendMessage
  rw [hb]
  rfl

theorem SendMessage_of_parse_error (a : APIHandlers) (c m : String) (hc : c ≠ "")
    (hm : m ≠ "") (hp : ParseInt c = none) :
    a.SendMessage (Body.decoded ⟨some c, some m⟩) = (a, ⟨StatusBadRequest,
      [("success", JSON.bool false), ("message", JSON.str "無效的聊天ID格式，請使用數字格式")]⟩) := by
  unfold APIHandlers.SendMessage
  rw [ShouldBindJSONSend_ok c m hc hm]
  dsimp only
  rw [hp]
  rfl

theorem SendMessage_invalid_eq (a : APIHandlers) (body : Body SendMessageJSON)
    (hbad : InvalidSendBody body) :
    ∃ text : String, a.SendMessage body =
      (a, ⟨400, [("success", JSON.bool false), ("message", JSON.str text)]⟩) := by
  cases body with
  | malformed err => exact ⟨_, SendMessage_of_bind_error a _ err rfl⟩
  | decoded fields =>
    obtain ⟨cid, msg⟩ := fields
    by_cases hz : (cid.getD "" = "" ∨ msg.getD "" = "")
    · obtain ⟨e, he⟩ := ShouldBindJSONSend_error ⟨cid, msg⟩ hz
      exact ⟨_, SendMessage_of_bind_error a _ e he⟩
    · push_neg at hz
      obtain ⟨hc, hm⟩ := hz
      cases cid with
      | none => exact absurd rfl hc
      | some c =>
        cases msg with
        | none => exact absurd rfl hm
        | some m =>
          simp only [Option.getD_some] at hc hm
          have hp : ParseInt c = none := by
            rcases hbad with h1 | h1 | h1 | h1 | h1
            · cases h1
            · exact absurd (Option.some.inj h1) hc
            · cases h1
            · exact absurd (Option.some.inj h1) hm
            · simpa using h1
          exact ⟨_, SendMessage_of_parse_error a c m hc hm hp⟩

/-- C4. For every request to the API handler `SendMessage` whose body is malformed, whose
`chat_id` or `message` is missing or empty, or whose `chat_id` does not parse as a base-10
64-bit signed integer, the answer has status 400 and `success=false`, no request is made to
the platform (the log of sends is unchanged) and the registry is unchanged. -/
theorem SendMessage_rejects_invalid_request (a : APIHandlers) (body : Body SendMessageJSON)
    (hbad : InvalidSendBody body) :
    (a.SendMessage body).2.status = 400 ∧
    (∃ text : String, (a.SendMessage body).2.body =
      [("success", JSON.bool false), ("message", JSON.str text)]) ∧
    (a.SendMessage body).1.botHandlers.bot.log = a.botHandlers.bot.log ∧
    GetKnownChatIDs (a.SendMessage body).1.botHandlers = GetKnownChatIDs a.botHandlers := by
  obtain ⟨text, h⟩ := SendMessage_invalid_eq a body hbad
  rw [h]
  exact ⟨rfl, ⟨text, rfl⟩, rfl, rfl⟩

/-- C4 at `chat_id = "abc"`, `message = "hi"` with chats 1 and 2 known. -/
theorem SendMessage_rejects_invalid_request_witness :
    InvalidSendBody (Body.decoded ⟨some "abc", some "hi"⟩) ∧
    ((NewAPIHandlers ([1, 2].foldl addChatID (NewBotHandlers okBot))).SendMessage
        (Body.decoded ⟨some "abc", some "hi"⟩)).2.status = 400 ∧
    ((NewAPIHandlers ([1, 2].foldl addChatID (NewBotHandlers okBot))).SendMessage
        (Body.decoded ⟨some "abc", some "hi"⟩)).1.botHandlers.bot.log = [] :=
  ⟨Or.inr (Or.inr (Or.inr (Or.inr (by decide)))),
   (SendMessage_rejects_invalid_request
      (NewAPIHandlers ([1, 2].foldl addChatID (NewBotHandlers okBot)))
      (Body.decoded ⟨some "abc", some "hi"⟩)
      (Or.inr (Or.inr (Or.inr (Or.inr (by decide)))))).1,
   (SendMessage_rejects_invalid_request
      (NewAPIHandlers ([1, 2].foldl addChatID (NewBotHandlers okBot)))
      (Body.decoded ⟨some "abc", some "hi"⟩)
      (Or.inr (Or.inr (Or.inr (Or.inr (by decide)))))).2.2.1⟩

/-- C5, as stated, fails for the id 0: with `chat_id = "0"` the platform is asked once to
send to chat 0 and succeeds, the status is 200, and the body has the fields `success` and
`message` only; there is no `chat_id` field (`omitempty`). -/
theorem SendMessage_zero_id_omits_chat_id :
    ParseInt "0" = some 0 ∧
    ((NewAPIHandlers (NewBotHandlers okBot)).SendMessage
        (Body.decoded ⟨some "0", some "hi"⟩)).1.botHandlers.bot.log =
      [(NewMessage 0 "hi", none)] ∧
    ((NewAPIHandlers (NewBotHandlers okBot)).SendMessage
        (Body.decoded ⟨some "0", some "hi"⟩)).2 =
      ⟨200, [("success", JSON.bool true), ("message", JSON.str "訊息發送成功")]⟩ ∧
    "chat_id" ∉ (((NewAPIHandlers (NewBotHandlers okBot)).SendMessage
        (Body.decoded ⟨some "0", some "hi"⟩)).2.body.map Prod.fst) := by
  decide

/-- C5, amended. For every request to `SendMessage` with a non-empty message and a
`chat_id` that parses as the base-10 64-bit integer `n`, the platform is asked exactly once,
to send the message to chat `n`.  If that succeeds the status is 200 and the body is
`success=true`, the message, and `chat_id=n` when `n ≠ 0` (for `n = 0` the body has no
`chat_id` field).  If it fails the status is 500 and `success=false`.  The registry is not
touched in either case. -/
theorem SendMessage_valid_request (a : APIHandlers) (c m : String) (n : Int)
    (hm : m ≠ "") (hp : ParseInt c = some n) :
    (a.SendMessage (Body.decoded ⟨some c, some m⟩)).1.botHandlers.bot.log =
      a.botHandlers.bot.log ++
        [(NewMessage n m, a.botHandlers.bot.respond a.botHandlers.bot.log (NewMessage n m))] ∧
    (a.botHandlers.bot.respond a.botHandlers.bot.log (NewMessage n m) = none →
      (a.SendMessage (Body.decoded ⟨some c, some m⟩)).2 =
        ⟨200, [("success", JSON.bool true), ("message", JSON.str "訊息發送成功")] ++
          (if n = 0 then [] else [("chat_id", JSON.num n)])⟩) ∧
    (∀ e : String, a.botHandlers.bot.respond a.botHandlers.bot.log (NewMessage n m) = some e →
      (a.SendMessage (Body.decoded ⟨some c, some m⟩)).2 =
        ⟨500, [("success", JSON.bool false), ("message", JSON.str ("發送訊息失敗：" ++ e))]⟩) ∧
    GetKnownChatIDs (a.SendMessage (Body.decoded ⟨some c, some m⟩)).1.botHandlers =
      GetKnownChatIDs a.botHandlers := by
  have hc : c ≠ "" := by
    intro h0
    rw [h0, ParseInt_empty] at hp
    cases hp
  have hrun : a.SendMessage (Body.decoded ⟨some c, some m⟩) =
      match a.botHandlers.bot.respond a.botHandlers.bot.log (NewMessage n m) with
      | some err =>
        ({ botHandlers := (SendMessageToChat a.botHandlers n m).1 },
          ⟨500, [("success", JSON.bool false), ("message", JSON.str ("發送訊息失敗：" ++ err))]⟩)
      | none =>
        ({ botHandlers := (SendMessageToChat a.botHandlers n m).1 },
          ⟨200, [("success", JSON.bool true), ("message", JSON.str "訊息發送成功")] ++
            (if n = 0 then [] else [("chat_id", JSON.num n)])⟩) := by
    unfold APIHandlers.SendMessage
    rw [ShouldBindJSONSend_ok c m hc hm]
    dsimp only
    rw [hp]
    dsimp only
    show (match a.botHandlers.bot.respond a.botHandlers.bot.log (NewMessage n m) with
      | some err => _
      | none => _) = _
    cases a.botHandlers.bot.respond a.botHandlers.bot.log (NewMessage n m) <;> rfl
  rw [hrun]
  cases hr : a.botHandlers.bot.respond a.botHandlers.bot.log (NewMessage n m) with
  | none =>
    refine ⟨?_, fun _ => rfl, fun e he => (by cases he), rfl⟩
    show a.botHandlers.bot.log ++ [(NewMessage n m, _)] = _
    rw [hr]
  | some err =>
    refine ⟨?_, fun hn => (by cases hn), fun e he => (by cases he; rfl), rfl⟩
    show a.botHandlers.bot.log ++ [(NewMessage n m, _)] = _
    rw [hr]

/-- C5 amended, at `chat_id = "-1001234567890"`: one send to that chat, status 200 and the
id in the body. -/
theorem SendMessage_valid_request_witness :
    ((NewAPIHandlers (NewBotHandlers okBot)).SendMessage
        (Body.decoded ⟨some "-1001234567890", some "hi"⟩)).1.botHandlers.bot.log =
      [] ++ [(NewMessage (-1001234567890) "hi", none)] ∧
    ((NewAPIHandlers (NewBotHandlers okBot)).SendMessage
        (Body.decoded ⟨some "-1001234567890", some "hi"⟩)).2 =
      ⟨200, [("success", JSON.bool true), ("message", JSON.str "訊息發送成功"),
        ("chat_id", JSON.num (-1001234567890))]⟩ ∧
    ((NewAPIHandlers (NewBotHandlers downBot)).SendMessage
        (Body.decoded ⟨some "123", some "hi"⟩)).2.status = 500 :=
  ⟨(SendMessage_valid_request (NewAPIHandlers (NewBotHandlers okBot)) "-1001234567890" "hi"
      (-1001234567890) (by decide) (by decide)).1,
   by decide, by decide⟩

/-! ## The sending loops -/

theorem broadcastSends_spec (args : String) (ids : List Int) (bot : BotAPI) (s f : Nat) :
    ∃ calls : List Call,
      (broadcastSends args ids bot s f).1.log = bot.log ++ calls ∧
      (broadcastSends args ids bot s f).1.respond = bot.respond ∧
      calls.map Prod.fst = ids.map (fun chatID => NewMessage chatID args) ∧
      (broadcastSends args ids bot s f).2.1 = s + calls.countP (fun c => c.2.isNone) ∧
      (broadcastSends args ids bot s f).2.2 = f + calls.countP (fun c => c.2.isSome) ∧
      (∀ g : Chattable → Option String, (∀ hist c, bot.respond hist c = g c) →
        calls = ids.map (fun chatID => (NewMessage chatID args, g (NewMessage chatID args)))) := by
  induction ids generalizing bot s f with
  | nil => exact ⟨[], by simp [broadcastSends], rfl, rfl, rfl, rfl, fun _ _ => rfl⟩
  | cons a ids ih =>
    cases hr : bot.respond bot.log (NewMessage a args) with
    | none =>
      obtain ⟨calls, h1, h2, h3, h4, h5, h6⟩ := ih (bot.Send (NewMessage a args)).1 (s + 1) f
      have hstep : broadcastSends args (a :: ids) bot s f =
          broadcastSends args ids (bot.Send (NewMessage a args)).1 (s + 1) f := by
        show (match (bot.Send (NewMessage a args)).2 with
          | some _ => _
          | none => _) = _
        have : (bot.Send (NewMessage a args)).2 = none := hr
        rw [this]
      rw [hstep]
      refine ⟨(NewMessage a args, none) :: calls, ?_, h2, ?_, ?_, ?_, ?_⟩
      · rw [h1]
        show (bot.log ++ [(NewMessage a args, bot.respond bot.log (NewMessage a args))]) ++ calls = _
        rw [hr]; simp
      · simp [h3]
      · rw [h4]; simp [List.countP_cons]; omega
      · rw [h5]; simp [List.countP_cons]
      · intro g hg
        have hg1 : ∀ hist c, (bot.Send (NewMessage a args)).1.respond hist c = g c := hg
        rw [h6 g hg1, List.map_cons, ← hg bot.log, hr]
    | some err =>
      obtain ⟨calls, h1, h2, h3, h4, h5, h6⟩ := ih (bot.Send (NewMessage a args)).1 s (f + 1)
      have hstep : broadcastSends args (a :: ids) bot s f =
          broadcastSends args ids (bot.Send (NewMessage a args)).1 s (f + 1) := by
        show (match (bot.Send (NewMessage a args)).2 with
          | some _ => _
          | none => _) = _
        have : (bot.Send (NewMessage a args)).2 = some err := hr
        rw [this]
      rw [hstep]
      refine ⟨(NewMessage a args, some err) :: calls, ?_, h2, ?_, ?_, ?_, ?_⟩
      · rw [h1]
        show (bot.log ++ [(NewMessage a args, bot.respond bot.log (NewMessage a args))]) ++ calls = _
        rw [hr]; simp
      · simp [h3]
      · rw [h4]; simp [List.countP_cons]
      · rw [h5]; simp [List.countP_cons]; omega
      · intro g hg
        have hg1 : ∀ hist c, (bot.Send (NewMessage a args)).1.respond hist c = g c := hg
        rw [h6 g hg1, List.map_cons, ← hg bot.log, hr]

theorem apiBroadcastSends_eq (msg : String) (ids : List Int) (h : BotHandlers) (s f : Nat) :
    apiBroadcastSends msg ids h s f =
      ({ h with bot := (broadcastSends msg ids h.bot s f).1 },
        (broadcastSends msg ids h.bot s f).2) := by
  induction ids generalizing h s f with
  | nil => rfl
  | cons a ids ih =>
    unfold apiBroadcastSends broadcastSends
    dsimp only
    show (match (h.bot.Send (NewMessage a msg)).2 with
      | some _ => _
      | none => _) = _
    cases (h.bot.Send (NewMessage a msg)).2 with
    | none => dsimp only; rw [ih]; rfl
    | some e => dsimp only; rw [ih]; rfl

theorem countP_isNone_add_isSome (calls : List Call) :
    calls.countP (fun c => c.2.isNone) + calls.countP (fun c => c.2.isSome) = calls.length := by
  induction calls with
  | nil => rfl
  | cons c calls ih =>
    rcases c with ⟨req, o⟩
    cases o <;> simp [List.countP_cons] <;> omega

/-! ## C6: the API handler `Broadcast` -/

theorem ShouldBindJSONBroadcast_ok (m : String) (hm : m ≠ "") :
    ShouldBindJSONBroadcast (Body.decoded ⟨some m⟩) = Except.ok ⟨m⟩ := by
  simp [ShouldBindJSONBroadcast, hm]

/-- C6. On a valid broadcast request (non-empty message), for every registry state and
every behaviour of the platform: if the registry is empty the handler `Broadcast` answers
400 with `success=false` and an explanatory message and makes no send; otherwise it makes
exactly one send per id of the snapshot (the ids are pairwise distinct), each with the
request message, and answers 200 with `success=true`, `success_count` the number of those
sends that succeeded and `fail_count` the number that failed, the two adding up to the
number of known ids.  When the platform answers by the target alone, the counts are the
numbers of ids for which it succeeds and fails. -/
theorem Broadcast_sends_to_every_known_chat (a : APIHandlers) (m : String) (hm : m ≠ "") :
    (GetKnownChatIDs a.botHandlers = [] →
      (a.Broadcast (Body.decoded ⟨some m⟩)).2 =
        ⟨400, [("success", JSON.bool false),
          ("message", JSON.str "目前沒有已知的聊天。請先讓機器人加入一些群組或與用戶互動。"),
          ("success_count", JSON.num 0), ("fail_count", JSON.num 0)]⟩ ∧
      (a.Broadcast (Body.decoded ⟨some m⟩)).1.botHandlers.bot.log = a.botHandlers.bot.log) ∧
    (GetKnownChatIDs a.botHandlers ≠ [] →
      ∃ calls : List Call,
        (a.Broadcast (Body.decoded ⟨some m⟩)).1.botHandlers.bot.log =
          a.botHandlers.bot.log ++ calls ∧
        calls.map Prod.fst =
          (GetKnownChatIDs a.botHandlers).map (fun chatID => NewMessage chatID m) ∧
        (GetKnownChatIDs a.botHandlers).Nodup ∧
        (a.Broadcast (Body.decoded ⟨some m⟩)).2 =
          ⟨200, [("success", JSON.bool true), ("message", JSON.str "廣播完成"),
            ("success_count", JSON.num (calls.countP (fun c => c.2.isNone) : Nat)),
            ("fail_count", JSON.num (calls.countP (fun c => c.2.isSome) : Nat))]⟩ ∧
        calls.countP (fun c => c.2.isNone) + calls.countP (fun c => c.2.isSome) =
          (GetKnownChatIDs a.botHandlers).length ∧
        (∀ g : Chattable → Option String,
          (∀ hist c, a.botHandlers.bot.respond hist c = g c) →
          calls.countP (fun c => c.2.isNone) =
            (GetKnownChatIDs a.botHandlers).countP
              (fun chatID => (g (NewMessage chatID m)).isNone) ∧
          calls.countP (fun c => c.2.isSome) =
            (GetKnownChatIDs a.botHandlers).countP
              (fun chatID => (g (NewMessage chatID m)).isSome))) := by
  constructor
  · intro he
    unfold APIHandlers.Broadcast
    rw [ShouldBindJSONBroadcast_ok m hm]
    dsimp only
    rw [he]
    exact ⟨rfl, rfl⟩
  · intro hne
    have hlen : ¬ (GetKnownChatIDs a.botHandlers).length = 0 := by
      intro h0
      exact hne (List.length_eq_zero.mp h0)
    have hrun : a.Broadcast (Body.decoded ⟨some m⟩) =
        ({ botHandlers :=
            (apiBroadcastSends m (GetKnownChatIDs a.botHandlers) a.botHandlers 0 0).1 },
          ⟨200, [("success", JSON.bool true), ("message", JSON.str "廣播完成"),
            ("success_count", JSON.num
              ((apiBroadcastSends m (GetKnownChatIDs a.botHandlers) a.botHandlers 0 0).2.1 : Nat)),
            ("fail_count", JSON.num
              ((apiBroadcastSends m (GetKnownChatIDs a.botHandlers) a.botHandlers 0 0).2.2 : Nat))]⟩) := by
      unfold APIHandlers.Broadcast
      rw [ShouldBindJSONBroadcast_ok m hm]
      dsimp only
      rw [if_neg hlen]
      rfl
    obtain ⟨calls, h1, _, h3, h4, h5, h6⟩ :=
      broadcastSends_spec m (GetKnownChatIDs a.botHandlers) a.botHandlers.bot 0 0
    rw [hrun, apiBroadcastSends_eq]
    refine ⟨calls, h1, h3, GetKnownChatIDs_nodup _, ?_, ?_, ?_⟩
    · show HTTPResponse.mk _ _ = _
      rw [h4, h5, Nat.zero_add, Nat.zero_add]
    · rw [countP_isNone_add_isSome]
      have := congrArg List.length h3
      simpa using this
    · intro g hg
      rw [h6 g hg, List.countP_map, List.countP_map]
      exact ⟨rfl, rfl⟩

/-- C6 at the registry `1, 2, 3` with a platform that fails only for chat 2: counts 2 and
1; and at the empty registry: status 400 and no send. -/
theorem Broadcast_sends_to_every_known_chat_witness :
    ((NewAPIHandlers ([1, 2, 3].foldl addChatID (NewBotHandlers failsFor2))).Broadcast
        (Body.decoded ⟨some "hi"⟩)).2 =
      ⟨200, [("success", JSON.bool true), ("message", JSON.str "廣播完成"),
        ("success_count", JSON.num 2), ("fail_count", JSON.num 1)]⟩ ∧
    ((NewAPIHandlers (NewBotHandlers failsFor2)).Broadcast (Body.decoded ⟨some "hi"⟩)).2 =
      ⟨400, [("success", JSON.bool false),
        ("message", JSON.str "目前沒有已知的聊天。請先讓機器人加入一些群組或與用戶互動。"),
        ("success_count", JSON.num 0), ("fail_count", JSON.num 0)]⟩ ∧
    ((NewAPIHandlers (NewBotHandlers failsFor2)).Broadcast
        (Body.decoded ⟨some "hi"⟩)).1.botHandlers.bot.log =
      (NewAPIHandlers (NewBotHandlers failsFor2)).botHandlers.bot.log :=
  ⟨by decide,
   ((Broadcast_sends_to_every_known_chat (NewAPIHandlers (NewBotHandlers failsFor2)) "hi"
      (by decide)).1 rfl).1,
   ((Broadcast_sends_to_every_known_chat (NewAPIHandlers (NewBotHandlers failsFor2)) "hi"
      (by decide)).1 rfl).2⟩

/-! ## C8: the `/broadcast` command through `HandleUpdate` -/

theorem handleCommand_broadcast (h : BotHandlers) (m : Message) (hb : m.Command = "broadcast") :
    handleCommand h m = handleBroadcastCommand h m m.CommandArguments := by
  unfold handleCommand
  dsimp only
  rw [hb]
  rw [if_neg (by decide), if_neg (by decide), if_neg (by decide), if_neg (by decide),
    if_pos rfl]

/-- C8. For every update that carries a `broadcast` command, `HandleUpdate` first records
the chat of the message, so the snapshot the handler takes contains the requester's chat and
is not empty.  With empty argument text the only request to the platform is the usage hint,
sent as a reply to the requester.  Otherwise there is exactly one send of the argument text
to every id of the snapshot (pairwise distinct ids), followed by one reply to the requester
with the summary, whose success count is the number of those sends that succeeded and whose
failure count is the number that failed; the counts add up to the size of the snapshot. -/
theorem broadcast_command_sends_to_snapshot (lib : Strings) (h : BotHandlers) (u : Update)
    (m : Message) (hu : u.Message = some m) (hc : m.IsCommand = true)
    (hb : m.Command = "broadcast") :
    GetKnownChatIDs (HandleUpdate lib h u) = GetKnownChatIDs (addChatID h m.Chat.ID) ∧
    m.Chat.ID ∈ GetKnownChatIDs (addChatID h m.Chat.ID) ∧
    GetKnownChatIDs (addChatID h m.Chat.ID) ≠ [] ∧
    (GetKnownChatIDs (addChatID h m.Chat.ID)).Nodup ∧
    (m.CommandArguments = "" →
      ∃ outcome : Option String, (HandleUpdate lib h u).bot.log =
        h.bot.log ++ [(Chattable.MessageConfig m.Chat.ID broadcastUsage m.MessageID, outcome)]) ∧
    (m.CommandArguments ≠ "" →
      ∃ (calls : List Call) (outcome : Option String),
        (HandleUpdate lib h u).bot.log =
          h.bot.log ++ calls ++
            [(Chattable.MessageConfig m.Chat.ID
                (broadcastSummary (calls.countP (fun c => c.2.isNone))
                  (calls.countP (fun c => c.2.isSome))) m.MessageID, outcome)] ∧
        calls.map Prod.fst =
          (GetKnownChatIDs (addChatID h m.Chat.ID)).map
            (fun chatID => NewMessage chatID m.CommandArguments) ∧
        calls.countP (fun c => c.2.isNone) + calls.countP (fun c => c.2.isSome) =
          (GetKnownChatIDs (addChatID h m.Chat.ID)).length) := by
  have hrun : HandleUpdate lib h u =
      handleBroadcastCommand (addChatID h m.Chat.ID) m m.CommandArguments := by
    unfold HandleUpdate
    rw [hu]
    dsimp only
    unfold handleMessage
    rw [if_pos hc]
    exact handleCommand_broadcast _ m hb
  have hin : m.Chat.ID ∈ GetKnownChatIDs (addChatID h m.Chat.ID) :=
    (mem_GetKnownChatIDs_addChatID h m.Chat.ID m.Chat.ID).mpr (Or.inl rfl)
  have hne : GetKnownChatIDs (addChatID h m.Chat.ID) ≠ [] := List.ne_nil_of_mem hin
  refine ⟨?_, hin, hne, GetKnownChatIDs_nodup _, ?_, ?_⟩
  · rw [hrun]
    exact GetKnownChatIDs_congr _ _ (handleBroadcastCommand_chatIDs _ m _)
  · intro ha
    rw [hrun]
    unfold handleBroadcastCommand
    rw [if_pos ha]
    exact ⟨_, sendReply_log _ m _⟩
  · intro ha
    have hlen : ¬ (GetKnownChatIDs (addChatID h m.Chat.ID)).length = 0 := by
      intro h0
      exact hne (List.length_eq_zero.mp h0)
    obtain ⟨calls, h1, _, h3, h4, h5, _⟩ :=
      broadcastSends_spec m.CommandArguments (GetKnownChatIDs (addChatID h m.Chat.ID))
        (addChatID h m.Chat.ID).bot 0 0
    have hb2 : handleBroadcastCommand (addChatID h m.Chat.ID) m m.CommandArguments =
        sendReply
          { addChatID h m.Chat.ID with
            bot := (broadcastSends m.CommandArguments (GetKnownChatIDs (addChatID h m.Chat.ID))
              (addChatID h m.Chat.ID).bot 0 0).1 } m
          (broadcastSummary
            (broadcastSends m.CommandArguments (GetKnownChatIDs (addChatID h m.Chat.ID))
              (addChatID h m.Chat.ID).bot 0 0).2.1
            (broadcastSends m.CommandArguments (GetKnownChatIDs (addChatID h m.Chat.ID))
              (addChatID h m.Chat.ID).bot 0 0).2.2) := by
      unfold handleBroadcastCommand
      rw [if_neg ha]
      dsimp only
      have hl : ¬ (List.foldl (fun chatIDs chatID => chatIDs ++ [chatID]) []
          (addChatID h m.Chat.ID).chatIDs.keys).length = 0 := hlen
      rw [if_neg hl]
      rfl
    have hlog : ∃ outcome : Option String, (HandleUpdate lib h u).bot.log =
        h.bot.log ++ calls ++
          [(Chattable.MessageConfig m.Chat.ID
              (broadcastSummary (calls.countP (fun c => c.2.isNone))
                (calls.countP (fun c => c.2.isSome))) m.MessageID, outcome)] := by
      rw [hrun, hb2, sendReply_log]
      dsimp only
      rw [h1, h4, h5, Nat.zero_add, Nat.zero_add]
      exact ⟨_, rfl⟩
    obtain ⟨outcome, hlog⟩ := hlog
    refine ⟨calls, outcome, hlog, h3, ?_⟩
    · rw [countP_isNone_add_isSome]
      have := congrArg List.length h3
      simpa using this

/-- C8 at `/broadcast hi` sent from chat 7 while chats 1 and 2 are known and the platform
fails for chat 2: sends to 1, 2 and 7, then the summary with counts 2 and 1. -/
theorem broadcast_command_sends_to_snapshot_witness :
    (HandleUpdate idStrings ([1, 2].foldl addChatID (NewBotHandlers failsFor2))
        ⟨some (msgIn7 "/broadcast hi" true "broadcast" "hi"), none⟩).bot.log =
      [(NewMessage 1 "hi", none),
       (NewMessage 2 "hi", some "Bad Request: chat not found"),
       (NewMessage 7 "hi", none),
       (Chattable.MessageConfig 7 (broadcastSummary 2 1) 10, none)] ∧
    GetKnownChatIDs (HandleUpdate idStrings ([1, 2].foldl addChatID (NewBotHandlers failsFor2))
        ⟨some (msgIn7 "/broadcast hi" true "broadcast" "hi"), none⟩) =
      GetKnownChatIDs (addChatID ([1, 2].foldl addChatID (NewBotHandlers failsFor2)) 7) :=
  ⟨by decide,
   (broadcast_command_sends_to_snapshot idStrings ([1, 2].foldl addChatID (NewBotHandlers failsFor2))
      ⟨some (msgIn7 "/broadcast hi" true "broadcast" "hi"), none⟩
      (msgIn7 "/broadcast hi" true "broadcast" "hi") rfl rfl rfl).1⟩

/-! ## C7: the `/sendto` command -/

theorem cutAtSpace_none (l : List Char) (hl : ' ' ∉ l) : cutAtSpace l = none := by
  induction l with
  | nil => rfl
  | cons c cs ih =>
    have hc : c ≠ ' ' := fun e => hl (e ▸ List.mem_cons_self _ _)
    have hcs : ' ' ∉ cs := fun e => hl (List.mem_cons_of_mem _ e)
    unfold cutAtSpace
    rw [if_neg hc, ih hcs]

theorem cutAtSpace_append (a b : List Char) (ha : ' ' ∉ a) :
    cutAtSpace (a ++ ' ' :: b) = some (a, b) := by
  induction a with
  | nil =>
    show cutAtSpace (' ' :: b) = some ([], b)
    unfold cutAtSpace
    rw [if_pos rfl]
  | cons c cs ih =>
    have hc : c ≠ ' ' := fun e => ha (e ▸ List.mem_cons_self _ _)
    have hcs : ' ' ∉ cs := fun e => ha (List.mem_cons_of_mem _ e)
    show cutAtSpace (c :: (cs ++ ' ' :: b)) = some (c :: cs, b)
    unfold cutAtSpace
    rw [if_neg hc, ih hcs]

theorem SplitN_no_space (s : String) (hs : ' ' ∉ s.data) : SplitN s = [s] := by
  unfold SplitN
  rw [cutAtSpace_none _ hs]

theorem SplitN_at_first_space (tok rest : String) (ht : ' ' ∉ tok.data) :
    SplitN (tok ++ " " ++ rest) = [tok, rest] := by
  unfold SplitN
  have hd : (tok ++ " " ++ rest).data = tok.data ++ ' ' :: rest.data := by
    simp [String.data_append]
  rw [hd, cutAtSpace_append _ _ ht]

/-- C7, as stated, fails in two ways. On the arguments `999 ` (id, one space, no text) the
text after the token is empty, yet a message with empty text is sent to chat 999. On the
arguments `999<TAB>hi` the leading whitespace-delimited token is the id 999 and the text
after it is `hi`, yet nothing is sent to chat 999: the requester gets the usage hint. -/
theorem sendto_claim_counterexamples :
    (handleSendToCommand (NewBotHandlers okBot) (msgIn7 "/sendto 999 " true "sendto" "999 ")
        "999 ").bot.log =
      [(NewMessage 999 "", none),
       (Chattable.MessageConfig 7 "✅ 訊息已成功發送到聊天 999" 10, none)] ∧
    (handleSendToCommand (NewBotHandlers okBot)
        (msgIn7 "/sendto 999\thi" true "sendto" "999\thi") "999\thi").bot.log =
      [(Chattable.MessageConfig 7 sendtoUsage 10, none)] := by
  decide

/-- C7, amended. The `/sendto` handler cuts its argument string at the first space
character.  If there is no space, the only request to the platform is the usage hint, sent
as a reply to the requester; if the text before the first space is not a base-10 64-bit
integer, the only request is the invalid-id hint, sent as a reply to the requester.  If the
text before the first space parses as `n` and the text after it is not empty, there is
exactly one send, to chat `n` with all the text after the first space, followed by one reply
to the requester: the success notice when the send succeeded, the failure notice with the
error when it failed. -/
theorem sendto_cuts_at_first_space (h : BotHandlers) (message : Message) (args : String) :
    (' ' ∉ args.data →
      ∃ outcome : Option String, (handleSendToCommand h message args).bot.log =
        h.bot.log ++
          [(Chattable.MessageConfig message.Chat.ID sendtoUsage message.MessageID, outcome)]) ∧
    (∀ tok rest : String, args = tok ++ " " ++ rest → ' ' ∉ tok.data → ParseInt tok = none →
      ∃ outcome : Option String, (handleSendToCommand h message args).bot.log =
        h.bot.log ++
          [(Chattable.MessageConfig message.Chat.ID sendtoInvalidID message.MessageID,
            outcome)]) ∧
    (∀ (tok rest : String) (n : Int), args = tok ++ " " ++ rest → ' ' ∉ tok.data →
      ParseInt tok = some n → rest ≠ "" →
      ∃ (sent replied : Option String) (status : String),
        (handleSendToCommand h message args).bot.log =
          h.bot.log ++ [(NewMessage n rest, sent),
            (Chattable.MessageConfig message.Chat.ID status message.MessageID, replied)] ∧
        (sent = none → status = "✅ 訊息已成功發送到聊天 " ++ FormatInt n) ∧
        (∀ e : String, sent = some e → status = "發送失敗：" ++ e)) := by
  refine ⟨?_, ?_, ?_⟩
  · intro hs
    unfold handleSendToCommand
    rw [SplitN_no_space args hs]
    exact ⟨_, sendReply_log h message _⟩
  · intro tok rest ha ht hp
    unfold handleSendToCommand
    rw [ha, SplitN_at_first_space tok rest ht]
    dsimp only
    rw [hp]
    exact ⟨_, sendReply_log h message _⟩
  · intro tok rest n ha ht hp _
    unfold handleSendToCommand
    rw [ha, SplitN_at_first_space tok rest ht]
    dsimp only
    rw [hp]
    dsimp only
    cases hr : h.bot.respond h.bot.log (NewMessage n rest) with
    | none =>
      have h2 : (h.bot.Send (NewMessage n rest)).2 = none := hr
      rw [h2]
      dsimp only
      have hlog : ∃ replied : Option String,
          (sendReply { h with bot := (h.bot.Send (NewMessage n rest)).1 } message
            ("✅ 訊息已成功發送到聊天 " ++ FormatInt n)).bot.log =
          h.bot.log ++ [(NewMessage n rest, none),
            (Chattable.MessageConfig message.Chat.ID
              ("✅ 訊息已成功發送到聊天 " ++ FormatInt n) message.MessageID, replied)] := by
        refine ⟨(h.bot.Send (NewMessage n rest)).1.respond (h.bot.Send (NewMessage n rest)).1.log
          (Chattable.MessageConfig message.Chat.ID ("✅ 訊息已成功發送到聊天 " ++ FormatInt n) message.MessageID), ?_⟩
        rw [sendReply_log]
        show (h.bot.log ++ [(NewMessage n rest, h.bot.respond h.bot.log (NewMessage n rest))])
          ++ _ = _
        rw [hr, List.append_assoc]
        rfl
      obtain ⟨replied, hlog⟩ := hlog
      exact ⟨none, replied, "✅ 訊息已成功發送到聊天 " ++ FormatInt n, hlog, fun _ => rfl,
        fun e he => (by cases he)⟩
    | some err =>
      have h2 : (h.bot.Send (NewMessage n rest)).2 = some err := hr
      rw [h2]
      dsimp only
      have hlog : ∃ replied : Option String,
          (sendReply { h with bot := (h.bot.Send (NewMessage n rest)).1 } message
            ("發送失敗：" ++ err)).bot.log =
          h.bot.log ++ [(NewMessage n rest, some err),
            (Chattable.MessageConfig message.Chat.ID ("發送失敗：" ++ err) message.MessageID,
              replied)] := by
        refine ⟨(h.bot.Send (NewMessage n rest)).1.respond (h.bot.Send (NewMessage n rest)).1.log
          (Chattable.MessageConfig message.Chat.ID ("發送失敗：" ++ err) message.MessageID), ?_⟩
        rw [sendReply_log]
        show (h.bot.log ++ [(NewMessage n rest, h.bot.respond h.bot.log (NewMessage n rest))])
          ++ _ = _
        rw [hr, List.append_assoc]
        rfl
      obtain ⟨replied, hlog⟩ := hlog
      exact ⟨some err, replied, "發送失敗：" ++ err, hlog, fun hn => (by cases hn),
        fun e he => (by cases he; rfl)⟩

/-- C7 amended, at `sendto 999 hi` (one send to chat 999 with text `hi`, then the success
notice) and at `sendto abc hello` (the invalid-id hint only). -/
theorem sendto_cuts_at_first_space_witness :
    (handleSendToCommand (NewBotHandlers okBot) (msgIn7 "/sendto 999 hi" true "sendto" "999 hi")
        "999 hi").bot.log =
      [(NewMessage 999 "hi", none),
       (Chattable.MessageConfig 7 "✅ 訊息已成功發送到聊天 999" 10, none)] ∧
    (∃ outcome : Option String,
      (handleSendToCommand (NewBotHandlers okBot)
        (msgIn7 "/sendto abc hello" true "sendto" "abc hello") "abc hello").bot.log =
      (NewBotHandlers okBot).bot.log ++
        [(Chattable.MessageConfig (msgIn7 "/sendto abc hello" true "sendto" "abc hello").Chat.ID
            sendtoInvalidID
            (msgIn7 "/sendto abc hello" true "sendto" "abc hello").MessageID, outcome)]) :=
  ⟨by decide,
   (sendto_cuts_at_first_space (NewBotHandlers okBot)
      (msgIn7 "/sendto abc hello" true "sendto" "abc hello") "abc hello").2.1
      "abc" "hello" (by decide) (by decide) (by decide)⟩

/-! ## C10: the poll loop -/

theorem runBot_returned (lib : Strings) (events : List Selected) (s : BotLoop)
    (hs : s.state = LoopState.ShuttingDown) : events.foldl (runBotStep lib) s = s := by
  induction events with
  | nil => rfl
  | cons e events ih =>
    have hstep : runBotStep lib s e = s := by
      unfold runBotStep
      rw [hs]
    rw [List.foldl_cons, hstep, ih]

theorem runBot_from_running (lib : Strings) (events : List Selected) (s : BotLoop)
    (hs : s.state = LoopState.Running) :
    ((events.foldl (runBotStep lib) s).state =
        if Selected.ctxDone ∈ events then LoopState.ShuttingDown else LoopState.Running) ∧
    (events.foldl (runBotStep lib) s).dispatched = s.dispatched ++ updatesBeforeCancel events ∧
    (events.foldl (runBotStep lib) s).stopCalls =
      s.stopCalls + (if Selected.ctxDone ∈ events then 1 else 0) ∧
    (events.foldl (runBotStep lib) s).botHandlers =
      (updatesBeforeCancel events).foldl (HandleUpdate lib) s.botHandlers := by
  induction events generalizing s with
  | nil => simp [updatesBeforeCancel, hs]
  | cons e events ih =>
    cases e with
    | ctxDone =>
      have hstep : (runBotStep lib s Selected.ctxDone).state = LoopState.ShuttingDown := by
        unfold runBotStep
        rw [hs]
      rw [List.foldl_cons, runBot_returned lib events _ hstep]
      refine ⟨by simp [hstep], ?_, ?_, ?_⟩
      · unfold runBotStep
        rw [hs]
        simp [updatesBeforeCancel]
      · unfold runBotStep
        rw [hs]
        simp
      · unfold runBotStep
        rw [hs]
        rfl
    | update u =>
      have hst : (runBotStep lib s (Selected.update u)).state = LoopState.Running := by
        unfold runBotStep
        rw [hs]
      have hd : (runBotStep lib s (Selected.update u)).dispatched = s.dispatched ++ [u] := by
        unfold runBotStep
        rw [hs]
      have hc : (runBotStep lib s (Selected.update u)).stopCalls = s.stopCalls := by
        unfold runBotStep
        rw [hs]
      have hb : (runBotStep lib s (Selected.update u)).botHandlers =
          HandleUpdate lib s.botHandlers u := by
        unfold runBotStep
        rw [hs]
      obtain ⟨i1, i2, i3, i4⟩ := ih _ hst
      rw [List.foldl_cons]
      refine ⟨?_, ?_, ?_, ?_⟩
      · rw [i1]; simp
      · rw [i2, hd]; simp [updatesBeforeCancel]
      · rw [i3, hc]; simp
      · rw [i4, hb]; rfl

/-- C10. The poll loop `runBot` as a step function over `Running` and `ShuttingDown`:
from `Running` a step ends in `ShuttingDown` exactly when the cancellation case fires, and
that step calls `StopReceivingUpdates` once and dispatches nothing; a step on an update
dispatches it to `HandleUpdate` and stays in `Running` whatever the platform answers; after
the cancellation step no further event changes anything (the function has returned).  Over
a whole run the loop has left `Running` exactly when a cancellation occurred, the updates
dispatched are exactly those before the first cancellation, and the update stream is stopped
exactly once in that case. -/
theorem runBot_leaves_running_only_on_cancel (lib : Strings) (s : BotLoop) (e : Selected)
    (botHandlers : BotHandlers) (events : List Selected) :
    (s.state = LoopState.Running →
      ((runBotStep lib s e).state = LoopState.ShuttingDown ↔ e = Selected.ctxDone)) ∧
    (s.state = LoopState.Running →
      (runBotStep lib s Selected.ctxDone).state = LoopState.ShuttingDown ∧
      (runBotStep lib s Selected.ctxDone).stopCalls = s.stopCalls + 1 ∧
      (runBotStep lib s Selected.ctxDone).dispatched = s.dispatched ∧
      (runBotStep lib s Selected.ctxDone).botHandlers.bot.log = s.botHandlers.bot.log) ∧
    (∀ u : Update, s.state = LoopState.Running →
      (runBotStep lib s (Selected.update u)).state = LoopState.Running ∧
      (runBotStep lib s (Selected.update u)).dispatched = s.dispatched ++ [u] ∧
      (runBotStep lib s (Selected.update u)).stopCalls = s.stopCalls ∧
      (runBotStep lib s (Selected.update u)).botHandlers = HandleUpdate lib s.botHandlers u) ∧
    (s.state = LoopState.ShuttingDown →
      (events.foldl (runBotStep lib) s).state = LoopState.ShuttingDown ∧
      (events.foldl (runBotStep lib) s).dispatched = s.dispatched ∧
      (events.foldl (runBotStep lib) s).stopCalls = s.stopCalls ∧
      (events.foldl (runBotStep lib) s).botHandlers.bot.log = s.botHandlers.bot.log) ∧
    ((runBot lib botHandlers events).state = LoopState.ShuttingDown ↔
      Selected.ctxDone ∈ events) ∧
    (runBot lib botHandlers events).dispatched = updatesBeforeCancel events ∧
    (runBot lib botHandlers events).stopCalls = (if Selected.ctxDone ∈ events then 1 else 0) ∧
    (runBot lib botHandlers events).botHandlers =
      (updatesBeforeCancel events).foldl (HandleUpdate lib) botHandlers := by
  have hrun := runBot_from_running lib events (runBotStart botHandlers) rfl
  refine ⟨?_, ?_, ?_, ?_, ?_, ?_, ?_, ?_⟩
  · intro hs
    cases e with
    | ctxDone =>
      unfold runBotStep
      rw [hs]
      simp
    | update u =>
      unfold runBotStep
      rw [hs]
      simp
  · intro hs
    unfold runBotStep
    rw [hs]
    exact ⟨rfl, rfl, rfl, rfl⟩
  · intro u hs
    unfold runBotStep
    rw [hs]
    exact ⟨rfl, rfl, rfl, rfl⟩
  · intro hs
    rw [runBot_returned lib events s hs]
    exact ⟨hs, rfl, rfl, rfl⟩
  · show (events.foldl (runBotStep lib) (runBotStart botHandlers)).state = _ ↔ _
    rw [hrun.1]
    by_cases hc : Selected.ctxDone ∈ events
    · simp [hc]
    · simp [hc]
  · show (events.foldl (runBotStep lib) (runBotStart botHandlers)).dispatched = _
    rw [hrun.2.1]
    rfl
  · show (events.foldl (runBotStep lib) (runBotStart botHandlers)).stopCalls = _
    rw [hrun.2.2.1]
    show 0 + _ = _
    rw [Nat.zero_add]
  · exact hrun.2.2.2

/-- C10 on the run: update from chat 7, cancellation, update from chat 7 again, with a
platform on which every request fails.  The loop ends in `ShuttingDown`, only the first
update was dispatched, and the stream was stopped once. -/
theorem runBot_leaves_running_only_on_cancel_witness :
    (runBot idStrings (NewBotHandlers downBot)
      [Selected.update ⟨some (msgIn7 "hi" false "" ""), none⟩, Selected.ctxDone,
       Selected.update ⟨some (msgIn7 "again" false "" ""), none⟩]).state =
      LoopState.ShuttingDown ∧
    (runBot idStrings (NewBotHandlers downBot)
      [Selected.update ⟨some (msgIn7 "hi" false "" ""), none⟩, Selected.ctxDone,
       Selected.update ⟨some (msgIn7 "again" false "" ""), none⟩]).dispatched =
      [⟨some (msgIn7 "hi" false "" ""), none⟩] ∧
    (runBot idStrings (NewBotHandlers downBot)
      [Selected.update ⟨some (msgIn7 "hi" false "" ""), none⟩, Selected.ctxDone,
       Selected.update ⟨some (msgIn7 "again" false "" ""), none⟩]).stopCalls = 1 ∧
    (runBotStep idStrings (runBotStart (NewBotHandlers downBot))
      (Selected.update ⟨some (msgIn7 "hi" false "" ""), none⟩)).state = LoopState.Running :=
  ⟨by decide, by decide, by decide,
   ((runBot_leaves_running_only_on_cancel idStrings (runBotStart (NewBotHandlers downBot))
      Selected.ctxDone (NewBotHandlers downBot) []).2.2.1
      ⟨some (msgIn7 "hi" false "" ""), none⟩ rfl).1⟩

end TgBot
